import Mathlib

/-!
Verification development for the mod_audio_stream real-time audio
streaming engine.  The definitions below are a shallow embedding of the
C/C++ sources: the `Buffer` ring buffer (stream_utils / part_000), the
per-session `AudioPipe` websocket state machine and its
`LWS_CALLBACK_CLIENT_WRITEABLE` handler (part_000), the reconnect logic
(part_000), and the playback / JSON-ingress glue (lws_glue.cpp).
Machine-time values are seconds or microseconds as `Nat`; the session is
modelled in its single-track, unpaused configuration (the `both`-tracks
switch and the pause flag do not affect the properties proved here).
All state transitions are modelled as atomic steps of one interleaved
execution; locks guard exactly those steps in the source.
-/

set_option linter.unusedVariables false

/-- Constant L16_FRAME_SIZE_8KHZ_20MS from stream_utils.hpp. -/
def L16_FRAME_SIZE_8KHZ_20MS : Nat := 320

/-- Constant ULAW_FRAME_SIZE_8KHZ_20MS from stream_utils.hpp. -/
def ULAW_FRAME_SIZE_8KHZ_20MS : Nat := 160

/-- Constant MAX_CONNECTION_ATTEMPTS from stream_utils.hpp. -/
def MAX_CONNECTION_ATTEMPTS : Nat := 3

/-- Constant RECONNECTION_DELAY_SECONDS from stream_utils.hpp. -/
def RECONNECTION_DELAY_SECONDS : Nat := 1

/-- streaming_codec_t from stream_utils.hpp. -/
inductive StreamingCodec
  | L16
  | ULAW
deriving DecidableEq

/-- Step frame size computed in the AudioPipe constructor (part_000):
`L16_FRAME_SIZE_8KHZ_20MS * (sampling / 8000)`, or the ULAW base when the
codec is ULAW.  The division is C integer division. -/
def step_frame_size (codec : StreamingCodec) (sampling : Nat) : Nat :=
  match codec with
  | .L16 => L16_FRAME_SIZE_8KHZ_20MS * (sampling / 8000)
  | .ULAW => ULAW_FRAME_SIZE_8KHZ_20MS * (sampling / 8000)

/-- The `Buffer` class of stream_utils.hpp / part_000.  Byte counts and the
chunk / capacity geometry are kept exactly; the switch_buffer payload is
abstracted to its in-use byte count (writes and reads are whole chunks, so
the content plays no role in the properties below).  The monotonic clocks
start at the creation instant, modelled as 0. -/
structure Buffer where
  maximum_capacity_bytes : Nat
  chunk_size_bytes : Nat
  current_usage_bytes : Nat
  /-- degradation_notification_sent_, initialised to 1 in the constructor. -/
  degradation_notification_sent : Nat
  time_step_increment : Nat
  generated_time : Nat
  last_send_time : Nat
  generated_chunk_count : Nat
  transmitted_chunk_count : Nat
deriving DecidableEq

/-- Buffer constructor (part_000 lines 7-21): capacity and chunk size from
the arguments, counters zeroed, degradation counter 1, step converted from
milliseconds to microseconds. -/
def Buffer.mk0 (max_len step_buffer_len step_time_increase : Nat) : Buffer :=
  { maximum_capacity_bytes := max_len
    chunk_size_bytes := step_buffer_len
    current_usage_bytes := 0
    degradation_notification_sent := 1
    time_step_increment := step_time_increase * 1000
    generated_time := 0
    last_send_time := 0
    generated_chunk_count := 0
    transmitted_chunk_count := 0 }

/-- Buffer::write (part_000 lines 48-63): a chunk-sized switch_buffer_write
that succeeds atomically iff the dynamic buffer can still hold the chunk
within its maximum; on success the generated clock and chunk counter
advance. -/
def Buffer.write (b : Buffer) : Buffer × Bool :=
  if b.current_usage_bytes + b.chunk_size_bytes ≤ b.maximum_capacity_bytes then
    ({ b with
        current_usage_bytes := b.current_usage_bytes + b.chunk_size_bytes
        generated_time := b.generated_time + b.time_step_increment
        generated_chunk_count := b.generated_chunk_count + 1 }, true)
  else
    (b, false)

/-- Buffer::read (part_000 lines 29-46): requests exactly one chunk; fails
when fewer than chunk_size_bytes are buffered, otherwise returns exactly
chunk_size_bytes and advances the send clock and transmitted counter.
(Writes are chunk-granular, so in-use is always a multiple of the chunk.) -/
def Buffer.read (b : Buffer) : Option (Nat × Buffer) :=
  if b.chunk_size_bytes ≤ b.current_usage_bytes then
    some (b.chunk_size_bytes,
      { b with
          current_usage_bytes := b.current_usage_bytes - b.chunk_size_bytes
          last_send_time := b.last_send_time + b.time_step_increment
          transmitted_chunk_count := b.transmitted_chunk_count + 1 })
  else
    none

/-- Buffer::is_data_available (stream_utils.hpp): current usage positive. -/
def Buffer.is_data_available (b : Buffer) : Bool :=
  decide (0 < b.current_usage_bytes)

/-- AudioPipe notification events (audio_pipe.hpp NotifyEvent_t), restricted
to those the modelled paths can emit. -/
inductive Notice
  | connectSuccess
  | connectFail
  | connectionDropped
  | connectionTimeout
  | connectionDegraded
deriving DecidableEq

/-- Kinds of JSON wire messages sent by the session. -/
inductive MsgLabel
  | startMsg
  | mediaMsg
  | stopMsg
  | playedMsg
  | incorrectMsg
  | clearedMsg
  | textMsg
deriving DecidableEq

/-- A sent or queued wire message, abstracted to its kind and the
sequenceNumber it carries (send_text payloads carry no sequence number of
their own and are tagged 0). -/
structure WireMsg where
  label : MsgLabel
  seq : Nat
deriving DecidableEq

/-- LwsState_t from audio_pipe.hpp. -/
inductive LwsState
  | idle
  | connecting
  | connected
  | failed
  | disconnecting
  | disconnected
  | reconnecting
deriving DecidableEq

/-- The per-session AudioPipe state (audio_pipe.hpp instance members)
together with the observable history of one execution: `sent` is the list
of wire messages in transmit order, `notices` the emitted notifications in
order, and `assigned` records each sequence number in the order the
counter handed it out (one entry per increaseSequenceNumber). -/
structure PipeState where
  m_sequenceNumber : Nat
  assigned : List Nat
  m_firstMsgSent : Bool
  m_lastMsgSent : Bool
  m_gracefulShutdown : Bool
  m_gracefulShutdown_at : Nat
  m_state : LwsState
  m_stream_started : Bool
  closed : Bool
  m_events : List WireMsg
  m_audio_buffer : Buffer
  sent : List WireMsg
  notices : List Notice
deriving DecidableEq

/-- Initial AudioPipe state (constructor, part_000 lines 1134-1189) for a
single-track session with the given buffer geometry. -/
def pipeInit (bufLen chunk : Nat) : PipeState :=
  { m_sequenceNumber := 0
    assigned := []
    m_firstMsgSent := false
    m_lastMsgSent := false
    m_gracefulShutdown := false
    m_gracefulShutdown_at := 0
    m_state := .idle
    m_stream_started := false
    closed := false
    m_events := []
    m_audio_buffer := Buffer.mk0 bufLen chunk 20
    sent := []
    notices := [] }

/-- AudioPipe::increaseSequenceNumber, with the handed-out value recorded in
the assignment history. -/
def consumeSeq (s : PipeState) : PipeState :=
  { s with
      m_sequenceNumber := s.m_sequenceNumber + 1
      assigned := s.assigned ++ [s.m_sequenceNumber] }

/-- AudioPipe::addEventBuffer (part_000 lines 1272-1282): refuse and leave
the queue untouched unless the transport is connected. -/
def addEventBuffer (s : PipeState) (m : WireMsg) : PipeState × Bool :=
  if s.m_state = .connected then
    ({ s with m_events := s.m_events ++ [m] }, true)
  else
    (s, false)

/-- Common shape of the control-message producers
(stream_ws_send_played_event, sendIncorrectPayloadEvent, the media.cleared
acknowledgement in processClearEvent): build the message carrying the
current sequence number, offer it to addEventBuffer, and increment the
counter unconditionally. -/
def enqueueCtl (l : MsgLabel) (s : PipeState) : PipeState :=
  consumeSeq (addEventBuffer s ⟨l, s.m_sequenceNumber⟩).1

/-- One frame-write iteration of stream_frame (lws_glue.cpp lines
1473-1512): attempt the chunk write, then — regardless of its outcome —
emit CONNECTION_DEGRADED and bump the counter when the post-write usage
exceeds `maximum_capacity × (counter × 0.3)` (the 0.3 double factor is
exact here, compared as `10·usage > 3·counter·capacity`), and finally emit
CONNECTION_TIMEOUT when the write failed. -/
def stream_frame_write (b : Buffer) : Buffer × List Notice :=
  let wr := b.write
  let b1 := wr.1
  let degraded :=
    10 * b1.current_usage_bytes >
      3 * b1.degradation_notification_sent * b1.maximum_capacity_bytes
  let b2 :=
    if degraded then
      { b1 with degradation_notification_sent := b1.degradation_notification_sent + 1 }
    else b1
  let ns :=
    (if degraded then [Notice.connectionDegraded] else []) ++
      (if wr.2 then [] else [Notice.connectionTimeout])
  (b2, ns)

/-- The LWS_CALLBACK_CLIENT_WRITEABLE handler (part_000 lines 620-821) for
a single-track session, as a function of the wall-clock second `now`.
Branches in source order: graceful-deadline close; graceful stop when both
buffers are drained and the final message is still unsent; the first
(start) message; one queued control message; the Disconnecting close; one
media chunk (nothing is sent when the buffer read fails). -/
def writeable (now : Nat) (s : PipeState) : PipeState :=
  if s.closed then s
  else if ¬(s.m_state = .connected ∨ s.m_state = .disconnecting) then s
  else if s.m_gracefulShutdown ∧ now ≥ s.m_gracefulShutdown_at + 60 then
    { s with m_state := .disconnecting, closed := true }
  else if s.m_gracefulShutdown ∧ s.m_audio_buffer.is_data_available = false ∧
      s.m_lastMsgSent = false then
    consumeSeq
      { s with
          sent := s.sent ++ [⟨.stopMsg, s.m_sequenceNumber⟩]
          m_lastMsgSent := true
          m_state := .disconnecting }
  else if s.m_firstMsgSent = false then
    consumeSeq
      { s with
          sent := s.sent ++ [⟨.startMsg, s.m_sequenceNumber⟩]
          m_firstMsgSent := true }
  else
    match s.m_events with
    | e :: es => { s with m_events := es, sent := s.sent ++ [e] }
    | [] =>
      if s.m_state = .disconnecting then { s with closed := true }
      else
        match s.m_audio_buffer.read with
        | some (_, b2) =>
          consumeSeq
            { s with
                m_audio_buffer := b2
                sent := s.sent ++ [⟨.mediaMsg, s.m_sequenceNumber⟩] }
        | none => s

/-- LWS_CALLBACK_CLIENT_ESTABLISHED (part_000 lines 445-467): the state
becomes connected, the attempt counter (modelled separately in ConnState)
resets, and CONNECT_SUCCESS fires only on the first establishment, latched
by m_stream_started. -/
def established (s : PipeState) : PipeState :=
  { s with
      m_state := .connected
      m_stream_started := true
      notices :=
        if s.m_stream_started then s.notices
        else s.notices ++ [Notice.connectSuccess] }

/-- AudioPipe::graceful_shutdown (part_000 lines 1325-1330): record the
request flag and the wall-clock second of the request. -/
def graceful_shutdown (now : Nat) (s : PipeState) : PipeState :=
  { s with m_gracefulShutdown := true, m_gracefulShutdown_at := now }

/-- The capture path of stream_frame as seen by the AudioPipe: one chunk is
written (with the degradation/timeout checks) only while the session is
connected and not in graceful shutdown (lws_glue.cpp lines 1411-1426). -/
def audio_write (s : PipeState) : PipeState :=
  if s.m_state = .connected ∧ s.m_gracefulShutdown = false then
    let r := stream_frame_write s.m_audio_buffer
    { s with m_audio_buffer := r.1, notices := s.notices ++ r.2 }
  else s

/-- Atomic events of one session execution. -/
inductive Step
  | established
  | enqueuePlayed
  | enqueueIncorrect
  | enqueueCleared
  | gracefulShutdown (now : Nat)
  | audioWrite
  | writeable (now : Nat)
deriving DecidableEq

/-- Apply one atomic event. -/
def applyStep (e : Step) (s : PipeState) : PipeState :=
  match e with
  | .established => established s
  | .enqueuePlayed => enqueueCtl .playedMsg s
  | .enqueueIncorrect => enqueueCtl .incorrectMsg s
  | .enqueueCleared => enqueueCtl .clearedMsg s
  | .gracefulShutdown now => graceful_shutdown now s
  | .audioWrite => audio_write s
  | .writeable now => writeable now s

/-- Run a list of events from the freshly constructed session. -/
def pipeRun (bufLen chunk : Nat) (steps : List Step) : PipeState :=
  steps.foldl (fun s e => applyStep e s) (pipeInit bufLen chunk)

/-- Messages whose sequence number is taken from the counter at the moment
of transmission (start, media and stop are serialised inside the writeable
callback itself). -/
def directMsg (m : WireMsg) : Bool :=
  match m.label with
  | .startMsg | .mediaMsg | .stopMsg => true
  | _ => false

/-- Does the message kind appear in the claim about start, media, stop and
playedStream sequence numbers? -/
def seqCarrier (m : WireMsg) : Bool :=
  match m.label with
  | .startMsg | .mediaMsg | .stopMsg | .playedMsg => true
  | _ => false

/-- Sequence numbers of the messages of a list that satisfy a kind
predicate, in list order. -/
def seqsOf (p : WireMsg → Bool) (ms : List WireMsg) : List Nat :=
  (ms.filter p).map (fun m => m.seq)

/-- Sequence numbers of the sent start/media/stop/playedStream messages, in
transmit order. -/
def seqTrace (s : PipeState) : List Nat :=
  seqsOf seqCarrier s.sent

/-- Sequence numbers of the sent start/media/stop messages, in transmit
order. -/
def directSeqTrace (s : PipeState) : List Nat :=
  seqsOf directMsg s.sent

/-- Occurrences of a message kind in a message list. -/
def countLabel (l : MsgLabel) (ms : List WireMsg) : Nat :=
  ms.countP (fun m => decide (m.label = l))

/-- Occurrences of a notification in a notice list. -/
def countNotice (x : Notice) (ns : List Notice) : Nat :=
  ns.countP (fun y => decide (y = x))

/-- Connection-attempt bookkeeping of one AudioPipe (part_000):
`m_connection_attempts`, the lifecycle state, and the observable history —
how many lws_client_connect_via_info calls were made, the delay (in
seconds) of every scheduled reconnect, how many retry timers are pending,
and how many CONNECT_FAIL notifications fired. -/
structure ConnState where
  m_connection_attempts : Nat
  state : LwsState
  attemptsMade : Nat
  retriesScheduled : List Nat
  pendingRetries : Nat
  connectFailCount : Nat
deriving DecidableEq

/-- Connection bookkeeping before the first connect. -/
def connInit : ConnState :=
  { m_connection_attempts := 0
    state := .idle
    attemptsMade := 0
    retriesScheduled := []
    pendingRetries := 0
    connectFailCount := 0 }

/-- AudioPipe::connect_client (part_000 lines 1242-1269): issue the
websocket connect and increment the attempt counter. -/
def connect_client (s : ConnState) : ConnState :=
  { s with
      state := .connecting
      attemptsMade := s.attemptsMade + 1
      m_connection_attempts := s.m_connection_attempts + 1 }

/-- AudioPipe::reconnect (part_000 lines 1207-1240), fired by a scheduled
retry timer: increment the attempt counter, mark reconnecting, and issue
another connect. -/
def reconnect_fire (s : ConnState) : ConnState :=
  if 0 < s.pendingRetries then
    { s with
        m_connection_attempts := s.m_connection_attempts + 1
        state := .reconnecting
        attemptsMade := s.attemptsMade + 1
        pendingRetries := s.pendingRetries - 1 }
  else s

/-- LWS_CALLBACK_CLIENT_CONNECTION_ERROR (part_000 lines 403-443): while
the attempt counter is at most MAX_CONNECTION_ATTEMPTS, mark failed and
schedule a reconnect after RECONNECTION_DELAY_SECONDS; otherwise mark
failed and emit CONNECT_FAIL. -/
def connection_error (s : ConnState) : ConnState :=
  if s.m_connection_attempts ≤ MAX_CONNECTION_ATTEMPTS then
    { s with
        state := .failed
        retriesScheduled := s.retriesScheduled ++ [RECONNECTION_DELAY_SECONDS]
        pendingRetries := s.pendingRetries + 1 }
  else
    { s with state := .failed, connectFailCount := s.connectFailCount + 1 }

/-- LWS_CALLBACK_CLIENT_ESTABLISHED resets the attempt counter to 0
(part_000 line 460). -/
def conn_established (s : ConnState) : ConnState :=
  { s with m_connection_attempts := 0, state := .connected }

/-- The transport run in which every connection attempt fails: the initial
connect, then alternating error callbacks and retry-timer firings until an
error finds the attempt cap exceeded. -/
def alwaysFailFinal : ConnState :=
  connection_error (reconnect_fire (connection_error (reconnect_fire
    (connection_error (reconnect_fire (connection_error
      (connect_client connInit)))))))

/-- Playback-injection state of one bidirectional session (private_data_t
fields write_buffer, stream_input_received, stream_input_played and the
checkpoint FIFO; lws_glue.cpp).  The write buffer is abstracted to its
in-use byte count. -/
structure PlaybackState where
  write_buffer_inuse : Nat
  stream_input_received : Nat
  stream_input_played : Nat
  checkpoints : List (String × Nat)
deriving DecidableEq

/-- Playback state at session start. -/
def playbackInit : PlaybackState :=
  { write_buffer_inuse := 0
    stream_input_received := 0
    stream_input_played := 0
    checkpoints := [] }

/-- The store step of storePayload (lws_glue.cpp lines 181-240) after
decode/resample, appending `n` bytes to the write buffer and advancing
stream_input_received by the same amount. -/
def storePayloadBytes (n : Nat) (st : PlaybackState) : PlaybackState :=
  { st with
      write_buffer_inuse := st.write_buffer_inuse + n
      stream_input_received := st.stream_input_received + n }

/-- processCheckpointEvent (lws_glue.cpp lines 298-358): ignore a missing
name; ignore any checkpoint received while stream_input_received is 0;
otherwise append the named checkpoint at the FIFO tail with position equal
to the current stream_input_received. -/
def processCheckpointEvent (name : Option String) (st : PlaybackState) :
    PlaybackState :=
  match name with
  | none => st
  | some n =>
    if st.stream_input_received = 0 then st
    else { st with checkpoints := st.checkpoints ++ [(n, st.stream_input_received)] }

/-- The firing loop of the WRITE_REPLACE branch (lws_glue.cpp lines
1825-1865): `played` is stream_input_played already advanced by this
frame's `len`; the loop stops at the first head checkpoint with
`played + len - 1 < position` and otherwise fires and pops heads in FIFO
order. -/
def fireCheckpoints (played len : Nat) :
    List (String × Nat) → List String × List (String × Nat)
  | [] => ([], [])
  | c :: rest =>
    if played + len - 1 < c.2 then ([], c :: rest)
    else
      let r := fireCheckpoints played len rest
      (c.1 :: r.1, r.2)

/-- SWITCH_ABC_TYPE_WRITE_REPLACE in voipbit_intelligent_media_processor
(lws_glue.cpp lines 1790-1871): when the write buffer holds at least the
frame length, read exactly that many bytes, advance stream_input_played,
and run the checkpoint-firing loop; otherwise do nothing.  Returns the new
state and the names of the playedStream events fired, in order. -/
def writeReplace (framelen : Nat) (st : PlaybackState) :
    PlaybackState × List String :=
  if framelen ≤ st.write_buffer_inuse then
    let len := framelen
    let played := st.stream_input_played + len
    let fired := fireCheckpoints played len st.checkpoints
    ({ st with
        write_buffer_inuse := st.write_buffer_inuse - len
        stream_input_played := played
        checkpoints := fired.2 }, fired.1)
  else (st, [])

/-- Outcome of processPlayAudioEvent: either an incorrectPayload
acknowledgement with the reason string passed to sendIncorrectPayloadEvent,
or a call to storePayload with the selected codec and (coerced)
sample rate. -/
inductive PlayOutcome
  | incorrect (reason : String)
  | stored (codec : StreamingCodec) (rate : Int)
deriving DecidableEq

/-- Is the outcome an incorrectPayload acknowledgement? -/
def PlayOutcome.isIncorrect : PlayOutcome → Bool
  | .incorrect _ => true
  | .stored _ _ => false

/-- processPlayAudioEvent (lws_glue.cpp lines 360-488), with each JSON
field abstracted to its presence/value: the four missing-field checks in
source order, then the sample-rate coercion (any rate other than 8000 or
16000 becomes 8000), then the contentType dispatch, in which only an
explicitly non-8000 rate that SURVIVED coercion rejects audio/x-mulaw. -/
def processPlayAudioEvent (hasMedia : Bool) (payload contentType : Option String)
    (sampleRate : Option Int) : PlayOutcome :=
  if hasMedia = false then .incorrect "media key not available"
  else
    match payload with
    | none => .incorrect "payload not available"
    | some _ =>
      match contentType with
      | none => .incorrect "Incorrect ContentType"
      | some ct =>
        match sampleRate with
        | none => .incorrect "sampleRate not available"
        | some r0 =>
          let r : Int := if r0 ≠ 8000 ∧ r0 ≠ 16000 then 8000 else r0
          if ct = "audio/x-l16" then .stored .L16 r
          else if ct = "audio/x-mulaw" then
            if r ≠ 8000 then
              .incorrect "Unsupported combination of codec, samplerate"
            else .stored .ULAW r
          else if ct = "raw" ∨ ct = "wav" then .stored .L16 r
          else .incorrect "Invalid Content type"

/-- Two's-complement wrap of an integer value into `w` bits. -/
def wrapBits (w : Nat) (n : Int) : Int :=
  (n + 2 ^ (w - 1)) % 2 ^ w - 2 ^ (w - 1)

/-- Modelled from the spec: the FreeSWITCH host macro
`switch_normalize_to_16bit` used at lws_glue.cpp line 1815 is not part of
this repository's sources; the spec states that sample mixing "saturates
at ±32767 — no wrap-around at overflow", so the clamp bound is ±32767 on
both sides. -/
def switch_normalize_to_16bit (n : Int) : Int :=
  if n > 32767 then 32767 else if n < -32767 then -32767 else n

/-- One sample of the WRITE_REPLACE mixing loop (lws_glue.cpp lines
1812-1817): the two 16-bit samples are added in a 32-bit accumulator
(`wrapBits 32` models the int32_t store), clamped, and the result stored
back into the 16-bit frame slot (`wrapBits 16` models the int16_t cast). -/
def mixSample (fp dat : Int) : Int :=
  wrapBits 16 (switch_normalize_to_16bit (wrapBits 32 (fp + dat)))

/-- JSON media message built by generate_json_data_event for
CLIENT_EVENT_MEDIA (part_000 lines 138-172), abstracted to the fields the
frame-size claim concerns: the sequence number, the byte length of the
(base64-decoded) payload, the chunk counter and the timestamp. -/
structure MediaEvent where
  sequenceNumber : Nat
  payloadLen : Nat
  chunk : Nat
  timestamp : Nat
deriving DecidableEq

/-- generate_json_data_event for CLIENT_EVENT_MEDIA: read one chunk from
the buffer; when the read fails no message is produced. -/
def generate_media_event (seq : Nat) (b : Buffer) :
    Option (MediaEvent × Buffer) :=
  match b.read with
  | none => none
  | some (len, b2) =>
    some ({ sequenceNumber := seq
            payloadLen := len
            chunk := b2.transmitted_chunk_count
            timestamp := b2.last_send_time }, b2)

/-- Buffer operations that can occur between the construction of the
AudioPipe and any given media send. -/
inductive BufOp
  | write
  | read
deriving DecidableEq

/-- Apply a sequence of buffer operations. -/
def applyBufOps (ops : List BufOp) (b : Buffer) : Buffer :=
  ops.foldl
    (fun b op =>
      match op with
      | .write => b.write.1
      | .read =>
        match b.read with
        | some r => r.2
        | none => b)
    b

/-- Return status of the C command-surface functions. -/
inductive SwitchStatus
  | success
  | statusFalse
deriving DecidableEq

/-- stream_session_send_text (lws_glue.cpp lines 1309-1333): fail only when
the media bug or the private data is missing; otherwise offer the text to
addEventBuffer (whose refusal is ignored) and report success. -/
def stream_session_send_text (hasBug hasTech : Bool)
    (pipe : Option PipeState) : Option PipeState × SwitchStatus :=
  if hasBug = false then (pipe, .statusFalse)
  else if hasTech = false then (pipe, .statusFalse)
  else
    match pipe with
    | some p => (some (addEventBuffer p ⟨.textMsg, 0⟩).1, .success)
    | none => (none, .success)

/-- Claim C2: the spec requires that no playedStream for position p fires
before bytes_played ≥ p.  On the failing input — 500 bytes received, a
checkpoint "A" taken at position 500, then one WRITE_REPLACE frame of 320
bytes — the code fires playedStream("A") while stream_input_played is only
320 < 500, because the firing loop compares stream_input_played (already
advanced by the frame) plus len − 1 against the position, counting the
frame length twice. -/
theorem checkpoint_fires_before_fully_played :
    (writeReplace 320
        (processCheckpointEvent (some "A") (storePayloadBytes 500 playbackInit))).2
      = ["A"] ∧
    (writeReplace 320
        (processCheckpointEvent (some "A") (storePayloadBytes 500 playbackInit))).1.stream_input_played
      = 320 ∧
    320 < 500 := by
  refine ⟨rfl, rfl, by omega⟩

/-- Claim C3 (counterexample): when every connection attempt fails, the
transport makes four lws connection attempts in total (the initial one
plus three scheduled retries), not exactly three. -/
theorem always_fail_makes_four_attempts :
    alwaysFailFinal.attemptsMade = 4 ∧ alwaysFailFinal.attemptsMade ≠ 3 := by
  refine ⟨rfl, by decide⟩

/-- Claim C3 (amended): when every connection attempt fails, the transport
makes the initial attempt plus exactly three retries — each retry
scheduled after the 1-second RECONNECTION_DELAY_SECONDS — for four
connection attempts in total, then emits CONNECT_FAIL exactly once and
schedules nothing further; on a successful handshake the attempt counter
is reset to 0. -/
theorem reconnect_retry_schedule_and_fail_once :
    alwaysFailFinal.attemptsMade = 4 ∧
    alwaysFailFinal.retriesScheduled =
      [RECONNECTION_DELAY_SECONDS, RECONNECTION_DELAY_SECONDS,
        RECONNECTION_DELAY_SECONDS] ∧
    alwaysFailFinal.connectFailCount = 1 ∧
    reconnect_fire alwaysFailFinal = alwaysFailFinal ∧
    (∀ s : ConnState, (conn_established s).m_connection_attempts = 0) := by
  refine ⟨rfl, rfl, rfl, rfl, fun s => rfl⟩

/-- Claim C4 (counterexample): the claim asserts that audio/x-mulaw with a
sample rate different from 8000 always yields an incorrectPayload
acknowledgement and the payload is not stored.  At rate 44100 the code
first coerces the rate to 8000 and then stores the payload as μ-law. -/
theorem mulaw_nonstandard_rate_stored_counterexample :
    ¬ (∀ r : Int, r ≠ 8000 →
        (processPlayAudioEvent true (some "p") (some "audio/x-mulaw")
            (some r)).isIncorrect = true) ∧
    processPlayAudioEvent true (some "p") (some "audio/x-mulaw") (some 44100)
      = .stored .ULAW 8000 := by
  constructor
  · intro h
    exact absurd (h 44100 (by decide)) (by decide)
  · rfl

/-- Claim C4 (amended): for every inbound media.play message the sample
rate is coerced first — any rate other than 8000 or 16000 becomes 8000 —
and only then is the contentType examined, so audio/x-mulaw is rejected
with an incorrectPayload acknowledgement exactly when the surviving rate
is 16000; mulaw at any other non-8000 rate is coerced to 8000 and stored,
and non-mulaw payloads at unsupported rates are likewise coerced to 8000
and processed. -/
theorem media_play_rate_coercion_and_mulaw_check :
    (∀ (p : String) (r : Int), r ≠ 8000 → r ≠ 16000 →
      processPlayAudioEvent true (some p) (some "audio/x-l16") (some r)
        = .stored .L16 8000 ∧
      processPlayAudioEvent true (some p) (some "audio/x-mulaw") (some r)
        = .stored .ULAW 8000) ∧
    processPlayAudioEvent true (some "p") (some "audio/x-mulaw") (some 16000)
      = .incorrect "Unsupported combination of codec, samplerate" ∧
    processPlayAudioEvent true (some "p") (some "audio/x-mulaw") (some 8000)
      = .stored .ULAW 8000 ∧
    processPlayAudioEvent true (some "p") (some "audio/x-l16") (some 16000)
      = .stored .L16 16000 := by
  refine ⟨?_, rfl, rfl, rfl⟩
  intro p r h1 h2
  constructor <;>
  · simp only [processPlayAudioEvent]
    rw [if_pos (And.intro h1 h2)]
    decide

/-- Claim C4 (witness): the amended theorem applied at rate 44100 with an
l16 payload. -/
theorem media_play_rate_coercion_witness :
    processPlayAudioEvent true (some "x") (some "audio/x-l16") (some 44100)
      = .stored .L16 8000 :=
  (media_play_rate_coercion_and_mulaw_check.1 "x" 44100 (by decide) (by decide)).1

/-- Claim C8: on the write-replace path each played sample is mixed into
the outgoing frame by 16-bit addition with saturation at ±32767: for any
two in-range 16-bit samples the 32-bit accumulator does not wrap, the sum
is clamped to [-32767, 32767], and the final 16-bit store is lossless, so
the stored sample is exactly the clamped mathematical sum. -/
theorem mix_saturation_no_wraparound :
    ∀ a b : Int, -32768 ≤ a → a ≤ 32767 → -32768 ≤ b → b ≤ 32767 →
      mixSample a b = max (-32767) (min 32767 (a + b)) ∧
      -32767 ≤ mixSample a b ∧ mixSample a b ≤ 32767 := by
  intro a b h1 h2 h3 h4
  simp only [mixSample, switch_normalize_to_16bit, wrapBits]
  norm_num
  split_ifs <;> omega

/-- Claim C8 (witness): the saturation theorem applied at the most positive
sample pair, where the unclamped sum 65534 would wrap a 16-bit store. -/
theorem mix_saturation_witness :
    mixSample 32767 32767 = max (-32767) (min 32767 (32767 + 32767)) :=
  (mix_saturation_no_wraparound 32767 32767 (by decide) (by decide)
    (by decide) (by decide)).1

/-- The buffer operations performed between construction and a media send
never change the chunk size fixed by the constructor. -/
theorem applyBufOps_chunk (ops : List BufOp) (b : Buffer) :
    (applyBufOps ops b).chunk_size_bytes = b.chunk_size_bytes := by
  induction ops generalizing b with
  | nil => rfl
  | cons op rest ih =>
    have hstep : applyBufOps (op :: rest) b = applyBufOps rest
        (match op with
          | .write => b.write.1
          | .read => match b.read with | some r => r.2 | none => b) := rfl
    rw [hstep, ih]
    cases op with
    | write => simp only [Buffer.write]; split <;> rfl
    | read =>
      cases hr : b.read with
      | none => rfl
      | some r =>
        simp only [Buffer.read] at hr
        split at hr
        · cases hr; rfl
        · cases hr

/-- Claim C9: a Buffer read either returns exactly one chunk of
chunk_size_bytes or fails, and any media message emitted from a buffer
built by the AudioPipe constructor — after any interleaving of chunk
writes and reads — carries a payload of exactly
`base_frame_size × (sampling / 8000)` bytes, the base being 320 for PCM16
and 160 for μ-law. -/
theorem media_payload_frame_size :
    (∀ (b : Buffer) (len : Nat) (b2 : Buffer), b.read = some (len, b2) →
      len = b.chunk_size_bytes) ∧
    (∀ (codec : StreamingCodec) (sampling bufLen seq : Nat) (ops : List BufOp)
      (ev : MediaEvent) (b2 : Buffer),
      generate_media_event seq
          (applyBufOps ops (Buffer.mk0 bufLen (step_frame_size codec sampling) 20))
        = some (ev, b2) →
      ev.payloadLen = step_frame_size codec sampling) ∧
    (∀ sampling : Nat,
      step_frame_size .L16 sampling = 320 * (sampling / 8000) ∧
      step_frame_size .ULAW sampling = 160 * (sampling / 8000)) := by
  have hread : ∀ (b : Buffer) (len : Nat) (b2 : Buffer),
      b.read = some (len, b2) → len = b.chunk_size_bytes := by
    intro b len b2 h
    simp only [Buffer.read] at h
    split at h
    · cases h; rfl
    · cases h
  refine ⟨hread, ?_, fun sampling => ⟨rfl, rfl⟩⟩
  intro codec sampling bufLen seq ops ev b2 h
  simp only [generate_media_event] at h
  cases hr : (applyBufOps ops (Buffer.mk0 bufLen (step_frame_size codec sampling) 20)).read with
  | none => rw [hr] at h; cases h
  | some r =>
    rw [hr] at h
    have hlen := hread _ r.1 r.2 (by rw [hr])
    cases h
    simpa [applyBufOps_chunk, Buffer.mk0] using hlen

/-- Claim C9 (witness): the frame-size theorem applied to a 16 kHz PCM16
session whose buffer received one chunk write; the emitted payload is 640
bytes, which is `step_frame_size L16 16000`. -/
theorem media_payload_frame_size_witness :
    ({ sequenceNumber := 0, payloadLen := 640, chunk := 1,
        timestamp := 20000 } : MediaEvent).payloadLen
      = step_frame_size .L16 16000 :=
  media_payload_frame_size.2.1 .L16 16000 12800 0 [.write]
    { sequenceNumber := 0, payloadLen := 640, chunk := 1, timestamp := 20000 }
    { maximum_capacity_bytes := 12800, chunk_size_bytes := 640,
      current_usage_bytes := 0, degradation_notification_sent := 1,
      time_step_increment := 20000, generated_time := 20000,
      last_send_time := 20000, generated_chunk_count := 1,
      transmitted_chunk_count := 1 } rfl

/-- Claim C10: whenever the transport is not in the Connected state,
addEventBuffer refuses the message and leaves the queue unchanged, so the
playedStream, incorrectPayload and media.cleared producers silently drop
their message (while still consuming a sequence number), and the send_text
API path nevertheless reports SWITCH_STATUS_SUCCESS to its caller. -/
theorem disconnected_enqueue_discarded_send_text_success :
    ∀ (s : PipeState) (m : WireMsg), s.m_state ≠ .connected →
      addEventBuffer s m = (s, false) ∧
      (enqueueCtl .playedMsg s).m_events = s.m_events ∧
      (enqueueCtl .incorrectMsg s).m_events = s.m_events ∧
      (enqueueCtl .clearedMsg s).m_events = s.m_events ∧
      (enqueueCtl .playedMsg s).m_sequenceNumber = s.m_sequenceNumber + 1 ∧
      stream_session_send_text true true (some s) = (some s, .success) := by
  intro s m h
  have hadd : ∀ m1 : WireMsg, addEventBuffer s m1 = (s, false) := by
    intro m1
    simp only [addEventBuffer, if_neg h]
  refine ⟨hadd m, ?_, ?_, ?_, ?_, ?_⟩
  · simp only [enqueueCtl, hadd, consumeSeq]
  · simp only [enqueueCtl, hadd, consumeSeq]
  · simp only [enqueueCtl, hadd, consumeSeq]
  · simp only [enqueueCtl, hadd, consumeSeq]
  · simp only [stream_session_send_text, hadd]
    rfl

/-- Claim C10 (witness): the discard theorem applied to a freshly
constructed (idle) session and a playedStream message. -/
theorem disconnected_enqueue_discarded_witness :
    addEventBuffer (pipeInit 3200 320) ⟨.playedMsg, 0⟩ = (pipeInit 3200 320, false) ∧
    stream_session_send_text true true (some (pipeInit 3200 320))
      = (some (pipeInit 3200 320), .success) := by
  have h := disconnected_enqueue_discarded_send_text_success (pipeInit 3200 320)
    ⟨.playedMsg, 0⟩ (by decide)
  exact ⟨h.1, h.2.2.2.2.2⟩

/-- Claim C6: after a chunk write on the capture path, a
CONNECTION_DEGRADED notification fires exactly when the post-write usage
exceeds `capacity × (counter × 0.3)`, each firing increments the counter
(so each 30% milestone fires at most once and successive firings need at
least 30%, 60%, 90% fill), a successful write never raises
CONNECTION_TIMEOUT, and a failed (buffer-full) write raises
CONNECTION_TIMEOUT; on a 3200-byte buffer filled in 320-byte chunks the
degraded notifications fire exactly on the writes reaching 1280 (40%),
2240 (70%) and 3200 (100%) bytes, and the next write fails and escalates
to CONNECTION_TIMEOUT. -/
theorem degradation_thresholds_and_timeout :
    (∀ b : Buffer, b.write.2 = true →
      ((stream_frame_write b).2 = [Notice.connectionDegraded] ↔
        10 * (b.current_usage_bytes + b.chunk_size_bytes) >
          3 * b.degradation_notification_sent * b.maximum_capacity_bytes) ∧
      Notice.connectionTimeout ∉ (stream_frame_write b).2) ∧
    (∀ b : Buffer, b.write.2 = false →
      Notice.connectionTimeout ∈ (stream_frame_write b).2) ∧
    (∀ b : Buffer, Notice.connectionDegraded ∈ (stream_frame_write b).2 →
      (stream_frame_write b).1.degradation_notification_sent =
        b.degradation_notification_sent + 1) ∧
    ((pipeRun 3200 320 ([.established] ++ List.replicate 4 .audioWrite)).notices
        = [.connectSuccess, .connectionDegraded] ∧
      (pipeRun 3200 320 ([.established] ++ List.replicate 4 .audioWrite)).m_audio_buffer.current_usage_bytes
        = 1280 ∧
      (pipeRun 3200 320 ([.established] ++ List.replicate 7 .audioWrite)).notices
        = [.connectSuccess, .connectionDegraded, .connectionDegraded] ∧
      (pipeRun 3200 320 ([.established] ++ List.replicate 7 .audioWrite)).m_audio_buffer.current_usage_bytes
        = 2240 ∧
      (pipeRun 3200 320 ([.established] ++ List.replicate 10 .audioWrite)).notices
        = [.connectSuccess, .connectionDegraded, .connectionDegraded,
            .connectionDegraded] ∧
      (pipeRun 3200 320 ([.established] ++ List.replicate 10 .audioWrite)).m_audio_buffer.current_usage_bytes
        = 3200 ∧
      (pipeRun 3200 320 ([.established] ++ List.replicate 11 .audioWrite)).notices
        = [.connectSuccess, .connectionDegraded, .connectionDegraded,
            .connectionDegraded, .connectionTimeout]) := by
  refine ⟨?_, ?_, ?_, by decide, by decide, by decide, by decide, by decide,
    by decide, by decide⟩
  · intro b hw
    simp only [Buffer.write] at hw
    split at hw
    · rename_i hfits
      constructor
      · simp only [stream_frame_write, Buffer.write, if_pos hfits]
        split <;> rename_i hthr
        · simpa using hthr
        · simpa using hthr
      · simp only [stream_frame_write, Buffer.write, if_pos hfits]
        split <;> simp
    · cases hw
  · intro b hw
    simp only [Buffer.write] at hw
    split at hw
    · cases hw
    · rename_i hfits
      simp only [stream_frame_write, Buffer.write, if_neg hfits]
      split <;> simp
  · intro b hmem
    have hpres : b.write.1.degradation_notification_sent
        = b.degradation_notification_sent := by
      simp only [Buffer.write]
      split <;> rfl
    simp only [stream_frame_write] at hmem ⊢
    split <;> rename_i hthr
    · simp [hpres]
    · rw [if_neg hthr] at hmem
      simp only [List.nil_append] at hmem
      split at hmem <;> simp at hmem

/-- Claim C6 (witness): the threshold characterisation applied to a fresh
3200-byte buffer (successful write, below the 30% threshold) and to a full
buffer (failed write escalating to CONNECTION_TIMEOUT). -/
theorem degradation_thresholds_witness :
    ((stream_frame_write (Buffer.mk0 3200 320 20)).2 = [Notice.connectionDegraded] ↔
      10 * ((Buffer.mk0 3200 320 20).current_usage_bytes +
          (Buffer.mk0 3200 320 20).chunk_size_bytes) >
        3 * (Buffer.mk0 3200 320 20).degradation_notification_sent *
          (Buffer.mk0 3200 320 20).maximum_capacity_bytes) ∧
    Notice.connectionTimeout ∈
      (stream_frame_write
        { Buffer.mk0 3200 320 20 with current_usage_bytes := 3200 }).2 := by
  constructor
  · exact (degradation_thresholds_and_timeout.1 (Buffer.mk0 3200 320 20) (by decide)).1
  · exact degradation_thresholds_and_timeout.2.1
      { Buffer.mk0 3200 320 20 with current_usage_bytes := 3200 } (by decide)

/-- Appending a message to a list extends its kind-filtered sequence trace
by the message's sequence number exactly when the kind predicate holds. -/
theorem seqsOf_append (p : WireMsg → Bool) (ms : List WireMsg) (m : WireMsg) :
    seqsOf p (ms ++ [m])
      = seqsOf p ms ++ (if p m then [m.seq] else []) := by
  simp only [seqsOf, List.filter_append]
  split <;> simp_all

/-- Every member of a filtered sequence trace comes from a sent message. -/
theorem mem_seqsOf (p : WireMsg → Bool) (ms : List WireMsg) (x : Nat)
    (hx : x ∈ seqsOf p ms) : ∃ m, m ∈ ms ∧ m.seq = x := by
  simp only [seqsOf, List.mem_map, List.mem_filter] at hx
  obtain ⟨m, ⟨hm, _⟩, hseq⟩ := hx
  exact ⟨m, hm, hseq⟩

/-- A strictly increasing list stays strictly increasing after appending an
element larger than all its members. -/
theorem pairwise_snoc_lt (l : List Nat) (x : Nat)
    (h : List.Pairwise (· < ·) l) (hx : ∀ y ∈ l, y < x) :
    List.Pairwise (· < ·) (l ++ [x]) := by
  rw [List.pairwise_append]
  refine ⟨h, List.pairwise_singleton _ _, ?_⟩
  intro a ha b hb
  simp only [List.mem_singleton] at hb
  subst hb
  exact hx a ha

/-- Counting a kind over concatenated message lists. -/
theorem countLabel_append (l : MsgLabel) (ms1 ms2 : List WireMsg) :
    countLabel l (ms1 ++ ms2) = countLabel l ms1 + countLabel l ms2 :=
  List.countP_append _ _ _

/-- Counting a notification over concatenated notice lists. -/
theorem countNotice_append (x : Notice) (ns1 ns2 : List Notice) :
    countNotice x (ns1 ++ ns2) = countNotice x ns1 + countNotice x ns2 :=
  List.countP_append _ _ _

/-- A message that is not a direct (start/media/stop) message contributes
nothing to the start and stop counts. -/
theorem not_direct_start_stop (m : WireMsg) (h : directMsg m = false) :
    countLabel .startMsg [m] = 0 ∧ countLabel .stopMsg [m] = 0 := by
  obtain ⟨l, k⟩ := m
  cases l <;> simp_all [directMsg, countLabel]

/-- The capture-path notifications are degradation or timeout only, never
CONNECT_SUCCESS. -/
theorem stream_frame_write_no_success (b : Buffer) :
    countNotice .connectSuccess (stream_frame_write b).2 = 0 := by
  simp only [stream_frame_write, countNotice]
  rw [List.countP_append]
  split <;> split <;> rfl

/-- Execution invariant of the session machine: the assignment history is
exactly 0,1,2,… up to the counter (each message that carries a
sequenceNumber read the counter and incremented it by exactly 1); every
sent or queued message carries a number below the counter; the queue holds
only indirect (queued-control) messages; the directly transmitted
start/media/stop messages appear in strictly increasing sequence order;
and start, stop and CONNECT_SUCCESS each occurred exactly as often as
their latch flag records. -/
def PipeInv (s : PipeState) : Prop :=
  s.assigned = List.range s.m_sequenceNumber ∧
  (∀ m ∈ s.sent, m.seq < s.m_sequenceNumber) ∧
  (∀ m ∈ s.m_events, m.seq < s.m_sequenceNumber ∧ directMsg m = false) ∧
  List.Pairwise (· < ·) (directSeqTrace s) ∧
  countLabel .startMsg s.sent = (if s.m_firstMsgSent then 1 else 0) ∧
  countLabel .stopMsg s.sent = (if s.m_lastMsgSent then 1 else 0) ∧
  countNotice .connectSuccess s.notices = (if s.m_stream_started then 1 else 0)

/-- The invariant holds of the freshly constructed session. -/
theorem pipeInv_init (bufLen chunk : Nat) : PipeInv (pipeInit bufLen chunk) := by
  refine ⟨rfl, ?_, ?_, ?_, rfl, rfl, rfl⟩
  · intro m hm; cases hm
  · intro m hm; cases hm
  · exact List.Pairwise.nil

/-- The invariant is preserved by the queued-control producers: the message
(whose kind is never direct) is appended to the queue only when connected,
and the counter is consumed unconditionally. -/
theorem pipeInv_enqueue (s : PipeState) (l : MsgLabel)
    (hl : directMsg ⟨l, s.m_sequenceNumber⟩ = false)
    (H : PipeInv s) : PipeInv (enqueueCtl l s) := by
  obtain ⟨hA, hSent, hEv, hPw, hStart, hStop, hSucc⟩ := H
  by_cases hc : s.m_state = .connected
  · have hq : enqueueCtl l s
        = consumeSeq { s with m_events := s.m_events ++ [⟨l, s.m_sequenceNumber⟩] } := by
      simp [enqueueCtl, addEventBuffer, hc]
    rw [hq]
    refine ⟨?_, ?_, ?_, hPw, hStart, hStop, hSucc⟩
    · simp only [consumeSeq]
      rw [hA, List.range_succ]
    · intro m hm
      exact Nat.lt_succ_of_lt (hSent m hm)
    · intro m hm
      simp only [consumeSeq, List.mem_append, List.mem_singleton] at hm
      rcases hm with hm | hm
      · exact ⟨Nat.lt_succ_of_lt (hEv m hm).1, (hEv m hm).2⟩
      · subst hm
        exact ⟨Nat.lt_succ_self _, hl⟩
  · have hq : enqueueCtl l s = consumeSeq s := by
      simp [enqueueCtl, addEventBuffer, hc]
    rw [hq]
    refine ⟨?_, ?_, ?_, hPw, hStart, hStop, hSucc⟩
    · simp only [consumeSeq]
      rw [hA, List.range_succ]
    · intro m hm
      exact Nat.lt_succ_of_lt (hSent m hm)
    · intro m hm
      exact ⟨Nat.lt_succ_of_lt (hEv m hm).1, (hEv m hm).2⟩

/-- Counting a kind over a single message. -/
theorem countLabel_singleton (l : MsgLabel) (m : WireMsg) :
    countLabel l [m] = if m.label = l then 1 else 0 := by
  simp [countLabel, List.countP_cons]

/-- The invariant is preserved when one queued control message is taken
from the head of the queue and transmitted. -/
theorem pipeInv_queuePop (s : PipeState) (e : WireMsg) (es : List WireMsg)
    (hev : s.m_events = e :: es) (H : PipeInv s) :
    PipeInv { s with m_events := es, sent := s.sent ++ [e] } := by
  obtain ⟨hA, hSent, hEv, hPw, hStart, hStop, hSucc⟩ := H
  have he : e.seq < s.m_sequenceNumber ∧ directMsg e = false := by
    refine hEv e ?_
    rw [hev]
    exact List.mem_cons_self _ _
  refine ⟨hA, ?_, ?_, ?_, ?_, ?_, hSucc⟩
  · intro m hm
    simp only [List.mem_append, List.mem_singleton] at hm
    rcases hm with hm | hm
    · exact hSent m hm
    · subst hm; exact he.1
  · intro m hm
    refine hEv m ?_
    rw [hev]
    exact List.mem_cons_of_mem _ hm
  · show List.Pairwise (· < ·) (seqsOf directMsg (s.sent ++ [e]))
    rw [seqsOf_append, he.2]
    simpa using hPw
  · show countLabel .startMsg (s.sent ++ [e])
      = (if s.m_firstMsgSent = true then 1 else 0)
    rw [countLabel_append, hStart, (not_direct_start_stop e he.2).1]
    simp
  · show countLabel .stopMsg (s.sent ++ [e])
      = (if s.m_lastMsgSent = true then 1 else 0)
    rw [countLabel_append, hStop, (not_direct_start_stop e he.2).2]
    simp

/-- The invariant is preserved when a direct message bearing the current
counter value is transmitted and the counter consumed, for whatever flag
values and transport state the branch leaves behind, given the resulting
start and stop counts. -/
theorem pipeInv_sendDirect (s : PipeState) (l : MsgLabel)
    (hl : directMsg ⟨l, s.m_sequenceNumber⟩ = true)
    (first2 last2 : Bool) (st2 : LwsState)
    (hstart2 : countLabel .startMsg (s.sent ++ [⟨l, s.m_sequenceNumber⟩])
      = (if first2 = true then 1 else 0))
    (hstop2 : countLabel .stopMsg (s.sent ++ [⟨l, s.m_sequenceNumber⟩])
      = (if last2 = true then 1 else 0))
    (H : PipeInv s) :
    PipeInv (consumeSeq
      { s with
          sent := s.sent ++ [⟨l, s.m_sequenceNumber⟩]
          m_firstMsgSent := first2
          m_lastMsgSent := last2
          m_state := st2 }) := by
  obtain ⟨hA, hSent, hEv, hPw, hStart, hStop, hSucc⟩ := H
  refine ⟨?_, ?_, ?_, ?_, hstart2, hstop2, hSucc⟩
  · simp only [consumeSeq]
    rw [hA, List.range_succ]
  · intro m hm
    simp only [consumeSeq, List.mem_append, List.mem_singleton] at hm
    rcases hm with hm | hm
    · exact Nat.lt_succ_of_lt (hSent m hm)
    · subst hm; exact Nat.lt_succ_self _
  · intro m hm
    exact ⟨Nat.lt_succ_of_lt (hEv m hm).1, (hEv m hm).2⟩
  · show List.Pairwise (· < ·)
      (seqsOf directMsg (s.sent ++ [⟨l, s.m_sequenceNumber⟩]))
    rw [seqsOf_append, hl]
    refine pairwise_snoc_lt _ _ hPw ?_
    intro y hy
    obtain ⟨m, hm, hmy⟩ := mem_seqsOf _ _ _ hy
    exact hmy ▸ hSent m hm

/-- The invariant is preserved by the writeable-callback handler. -/
theorem pipeInv_writeable (now : Nat) (s : PipeState) (H : PipeInv s) :
    PipeInv (writeable now s) := by
  have Hc := H
  obtain ⟨hA, hSent, hEv, hPw, hStart, hStop, hSucc⟩ := Hc
  unfold writeable
  split_ifs with h1 h2 h3 h4 h5 h6
  · exact H
  · exact ⟨hA, hSent, hEv, hPw, hStart, hStop, hSucc⟩
  · -- graceful stop branch
    refine pipeInv_sendDirect s .stopMsg rfl s.m_firstMsgSent true .disconnecting
      ?_ ?_ H
    · rw [countLabel_append, hStart, countLabel_singleton]
      simp
    · rw [countLabel_append, hStop, h4.2.2, countLabel_singleton]
      simp
  · -- start branch
    refine pipeInv_sendDirect s .startMsg rfl true s.m_lastMsgSent s.m_state
      ?_ ?_ H
    · rw [countLabel_append, hStart, h5, countLabel_singleton]
      simp
    · rw [countLabel_append, hStop, countLabel_singleton]
      simp
  · -- state is disconnecting: queue pop or close
    cases hev : s.m_events with
    | cons e es => exact pipeInv_queuePop s e es hev H
    | nil =>
      show PipeInv { s with m_events := ([] : List WireMsg), closed := true }
      exact ⟨hA, hSent, fun m hm => absurd hm (List.not_mem_nil m), hPw,
        hStart, hStop, hSucc⟩
  · -- connected: queue pop or media send
    cases hev : s.m_events with
    | cons e es => exact pipeInv_queuePop s e es hev H
    | nil =>
      cases hr : s.m_audio_buffer.read with
      | none => exact H
      | some r =>
        obtain ⟨len, b2⟩ := r
        have H2 : PipeInv { s with m_events := ([] : List WireMsg), m_audio_buffer := b2 } :=
          ⟨hA, hSent, fun m hm => absurd hm (List.not_mem_nil m), hPw,
            hStart, hStop, hSucc⟩
        refine pipeInv_sendDirect
          { s with m_events := ([] : List WireMsg), m_audio_buffer := b2 }
          .mediaMsg rfl s.m_firstMsgSent s.m_lastMsgSent s.m_state ?_ ?_ H2
        · rw [countLabel_append, countLabel_singleton]
          show countLabel .startMsg s.sent + _ = _
          rw [hStart]
          simp
        · rw [countLabel_append, countLabel_singleton]
          show countLabel .stopMsg s.sent + _ = _
          rw [hStop]
          simp
  · exact H

/-- The invariant is preserved by every atomic event of the session. -/
theorem pipeInv_step (e : Step) (s : PipeState) (H : PipeInv s) :
    PipeInv (applyStep e s) := by
  obtain ⟨hA, hSent, hEv, hPw, hStart, hStop, hSucc⟩ := H
  cases e with
  | established =>
    refine ⟨hA, hSent, hEv, hPw, hStart, hStop, ?_⟩
    show countNotice .connectSuccess
        (if s.m_stream_started then s.notices
          else s.notices ++ [Notice.connectSuccess]) = 1
    by_cases hst : s.m_stream_started
    · rw [if_pos hst]
      rw [hst] at hSucc
      simpa using hSucc
    · rw [if_neg hst, countNotice_append]
      have h0 : countNotice .connectSuccess s.notices = 0 := by
        rw [hSucc]
        simp [hst]
      rw [h0]
      rfl
  | enqueuePlayed =>
    exact pipeInv_enqueue s .playedMsg rfl
      ⟨hA, hSent, hEv, hPw, hStart, hStop, hSucc⟩
  | enqueueIncorrect =>
    exact pipeInv_enqueue s .incorrectMsg rfl
      ⟨hA, hSent, hEv, hPw, hStart, hStop, hSucc⟩
  | enqueueCleared =>
    exact pipeInv_enqueue s .clearedMsg rfl
      ⟨hA, hSent, hEv, hPw, hStart, hStop, hSucc⟩
  | gracefulShutdown now =>
    exact ⟨hA, hSent, hEv, hPw, hStart, hStop, hSucc⟩
  | audioWrite =>
    show PipeInv (audio_write s)
    unfold audio_write
    split_ifs with hc
    · refine ⟨hA, hSent, hEv, hPw, hStart, hStop, ?_⟩
      show countNotice .connectSuccess
          (s.notices ++ (stream_frame_write s.m_audio_buffer).2)
        = (if s.m_stream_started = true then 1 else 0)
      rw [countNotice_append, stream_frame_write_no_success, hSucc]
      simp
    · exact ⟨hA, hSent, hEv, hPw, hStart, hStop, hSucc⟩
  | writeable now =>
    exact pipeInv_writeable now s ⟨hA, hSent, hEv, hPw, hStart, hStop, hSucc⟩

/-- The invariant holds in every state reachable by a run. -/
theorem pipeInv_run (bufLen chunk : Nat) (steps : List Step) :
    PipeInv (pipeRun bufLen chunk steps) := by
  have hfold : ∀ (l : List Step) (s : PipeState), PipeInv s →
      PipeInv (l.foldl (fun s e => applyStep e s) s) := by
    intro l
    induction l with
    | nil => intro s hs; exact hs
    | cons e rest ih =>
      intro s hs
      exact ih _ (pipeInv_step e s hs)
  exact hfold steps _ (pipeInv_init bufLen chunk)

/-- Claim C1 (counterexample): the claim that the sequence numbers on the
sent start, media, stop and playedStream messages are transmitted in
strictly increasing order starting at 0 is false: in the run that sends
start (sequence 0), then has a playedStream enqueued (it is assigned
sequence 1 at enqueue time), then performs a graceful shutdown with empty
buffers, the writeable handler sends stop (sequence 2) before draining the
queued playedStream (sequence 1), so the wire order is 0, 2, 1. -/
theorem seq_trace_not_monotonic_counterexample :
    ¬ (∀ (bufLen chunk : Nat) (steps : List Step),
        List.Chain' (· < ·) (seqTrace (pipeRun bufLen chunk steps)) ∧
        (seqTrace (pipeRun bufLen chunk steps) = [] ∨
          (seqTrace (pipeRun bufLen chunk steps)).head? = some 0)) := by
  intro h
  have hx := (h 3200 320
    [.established, .writeable 0, .enqueuePlayed, .gracefulShutdown 0,
      .writeable 0, .writeable 0]).1
  have he : seqTrace (pipeRun 3200 320
      [.established, .writeable 0, .enqueuePlayed, .gracefulShutdown 0,
        .writeable 0, .writeable 0]) = [0, 2, 1] := rfl
  rw [he] at hx
  exact absurd hx (by simp)

/-- Claim C1 (amended): the counter starts at 0 and every message that
carries a sequenceNumber reads the current counter value and then
increments it by exactly 1 (so the numbers are assigned consecutively
0, 1, 2, …), and the start, media and stop messages — serialised at
transmit time — appear on the wire in strictly increasing sequence-number
order; but a playedStream message is numbered when it is enqueued and can
be transmitted after a later-numbered start, media or stop message. -/
theorem seq_assignment_consecutive_and_direct_order :
    ∀ (bufLen chunk : Nat) (steps : List Step),
      (pipeRun bufLen chunk steps).assigned
        = List.range (pipeRun bufLen chunk steps).m_sequenceNumber ∧
      List.Pairwise (· < ·) (directSeqTrace (pipeRun bufLen chunk steps)) :=
  fun bufLen chunk steps =>
    ⟨(pipeInv_run bufLen chunk steps).1,
      (pipeInv_run bufLen chunk steps).2.2.2.1⟩

/-- Claim C5: over every run, the start wire message is sent at most once
and CONNECT_SUCCESS is notified at most once; in the run that connects,
sends start, loses the connection silently and reconnects (a second
Established callback) and is writeable twice more, start is still sent
exactly once and CONNECT_SUCCESS fires exactly once. -/
theorem connect_success_and_start_at_most_once :
    (∀ (bufLen chunk : Nat) (steps : List Step),
      countLabel .startMsg (pipeRun bufLen chunk steps).sent ≤ 1 ∧
      countNotice .connectSuccess (pipeRun bufLen chunk steps).notices ≤ 1) ∧
    countLabel .startMsg (pipeRun 3200 320
      [.established, .writeable 0, .established, .writeable 0,
        .writeable 0]).sent = 1 ∧
    countNotice .connectSuccess (pipeRun 3200 320
      [.established, .writeable 0, .established, .writeable 0,
        .writeable 0]).notices = 1 := by
  refine ⟨?_, by decide, by decide⟩
  intro bufLen chunk steps
  have h := pipeInv_run bufLen chunk steps
  constructor
  · rw [h.2.2.2.2.1]
    split <;> omega
  · rw [h.2.2.2.2.2.2]
    split <;> omega

/-- In any reachable state, a writeable callback that transmits a stop
message can only have done so from the graceful-drain branch: graceful
shutdown was requested, both ring buffers were empty, the final message
had not been sent yet, the deadline had not passed, and the session
transitions to Disconnecting. -/
theorem writeable_stop_conditions (bufLen chunk : Nat) (steps : List Step)
    (now : Nat)
    (hcount : countLabel .stopMsg
        (writeable now (pipeRun bufLen chunk steps)).sent >
      countLabel .stopMsg (pipeRun bufLen chunk steps).sent) :
    (pipeRun bufLen chunk steps).m_gracefulShutdown = true ∧
    (pipeRun bufLen chunk steps).m_audio_buffer.is_data_available = false ∧
    (pipeRun bufLen chunk steps).m_lastMsgSent = false ∧
    now < (pipeRun bufLen chunk steps).m_gracefulShutdown_at + 60 ∧
    (writeable now (pipeRun bufLen chunk steps)).m_state = .disconnecting := by
  obtain ⟨hA, hSent, hEv, hPw, hStart, hStop, hSucc⟩ :=
    pipeInv_run bufLen chunk steps
  set s := pipeRun bufLen chunk steps with hs
  clear_value s
  unfold writeable at hcount ⊢
  split_ifs at hcount ⊢ with h1 h2 h3 h4 h5 h6
  · exact absurd hcount (Nat.lt_irrefl _)
  · exact absurd hcount (Nat.lt_irrefl _)
  · refine ⟨h4.1, h4.2.1, h4.2.2, ?_, rfl⟩
    by_cases hd : now < s.m_gracefulShutdown_at + 60
    · exact hd
    · exact absurd ⟨h4.1, by omega⟩ h3
  · exfalso
    have hc2 : countLabel .stopMsg
          (s.sent ++ [⟨.startMsg, s.m_sequenceNumber⟩])
        > countLabel .stopMsg s.sent := hcount
    rw [countLabel_append, countLabel_singleton] at hc2
    simp at hc2
  · cases hev : s.m_events with
    | cons e es =>
      rw [hev] at hcount
      exfalso
      have he : directMsg e = false := by
        refine (hEv e ?_).2
        rw [hev]
        exact List.mem_cons_self _ _
      have hc2 : countLabel .stopMsg (s.sent ++ [e])
          > countLabel .stopMsg s.sent := hcount
      rw [countLabel_append, (not_direct_start_stop e he).2] at hc2
      omega
    | nil =>
      rw [hev] at hcount
      exact absurd hcount (Nat.lt_irrefl _)
  · cases hev : s.m_events with
    | cons e es =>
      rw [hev] at hcount
      exfalso
      have he : directMsg e = false := by
        refine (hEv e ?_).2
        rw [hev]
        exact List.mem_cons_self _ _
      have hc2 : countLabel .stopMsg (s.sent ++ [e])
          > countLabel .stopMsg s.sent := hcount
      rw [countLabel_append, (not_direct_start_stop e he).2] at hc2
      omega
    | nil =>
      rw [hev] at hcount
      cases hr : s.m_audio_buffer.read with
      | none =>
        rw [hr] at hcount
        exact absurd hcount (Nat.lt_irrefl _)
      | some r =>
        obtain ⟨len, b2⟩ := r
        rw [hr] at hcount
        exfalso
        have hc2 : countLabel .stopMsg
              (s.sent ++ [⟨.mediaMsg, s.m_sequenceNumber⟩])
            > countLabel .stopMsg s.sent := hcount
        rw [countLabel_append, countLabel_singleton] at hc2
        simp at hc2
  · exact absurd hcount (Nat.lt_irrefl _)

/-- Claim C7: during graceful shutdown the stop message is sent only from
the drain branch — i.e. only when graceful shutdown was requested, the
ring buffer is empty and the final message has not been sent — after
which the state is Disconnecting; and on any writeable callback arriving
at or after 60 seconds past the graceful-shutdown request, the connection
is closed immediately without sending anything, regardless of buffered
audio. -/
theorem graceful_stop_only_when_drained_and_deadline_close :
    (∀ (bufLen chunk : Nat) (steps : List Step) (now : Nat),
      countLabel .stopMsg
          (writeable now (pipeRun bufLen chunk steps)).sent >
        countLabel .stopMsg (pipeRun bufLen chunk steps).sent →
      (pipeRun bufLen chunk steps).m_gracefulShutdown = true ∧
      (pipeRun bufLen chunk steps).m_audio_buffer.is_data_available = false ∧
      (pipeRun bufLen chunk steps).m_lastMsgSent = false ∧
      now < (pipeRun bufLen chunk steps).m_gracefulShutdown_at + 60 ∧
      (writeable now (pipeRun bufLen chunk steps)).m_state = .disconnecting) ∧
    (∀ (s : PipeState) (now : Nat),
      s.m_gracefulShutdown = true → s.closed = false →
      (s.m_state = .connected ∨ s.m_state = .disconnecting) →
      s.m_gracefulShutdown_at + 60 ≤ now →
      (writeable now s).closed = true ∧ (writeable now s).sent = s.sent) := by
  constructor
  · exact fun bufLen chunk steps now hcount =>
      writeable_stop_conditions bufLen chunk steps now hcount
  · intro s now hg hcl hst hdl
    unfold writeable
    split_ifs with h1 h2 h3 h4 h5
    · rw [hcl] at h1; cases h1
    · exact ⟨rfl, rfl⟩
    · exact absurd ⟨hg, hdl⟩ h2
    · exact absurd ⟨hg, hdl⟩ h2
    · exact absurd ⟨hg, hdl⟩ h2
    · exact absurd ⟨hg, hdl⟩ h2

/-- Claim C7 (witness): in the run that connects, sends start and requests
graceful shutdown at second 0, the next writeable callback (at second 10,
before the deadline, with an empty buffer) sends the stop message under
exactly the drain conditions; and the session that is still in graceful
shutdown at second 60 is closed by the deadline branch without sending
anything. -/
theorem graceful_stop_witness :
    ((pipeRun 3200 320
        [.established, .writeable 0, .gracefulShutdown 0]).m_gracefulShutdown
      = true ∧
    (pipeRun 3200 320
        [.established, .writeable 0, .gracefulShutdown 0]).m_audio_buffer.is_data_available
      = false ∧
    (pipeRun 3200 320
        [.established, .writeable 0, .gracefulShutdown 0]).m_lastMsgSent
      = false ∧
    10 < (pipeRun 3200 320
        [.established, .writeable 0, .gracefulShutdown 0]).m_gracefulShutdown_at + 60 ∧
    (writeable 10 (pipeRun 3200 320
        [.established, .writeable 0, .gracefulShutdown 0])).m_state
      = .disconnecting) ∧
    ((writeable 60 (pipeRun 3200 320
        [.established, .gracefulShutdown 0])).closed = true ∧
    (writeable 60 (pipeRun 3200 320
        [.established, .gracefulShutdown 0])).sent
      = (pipeRun 3200 320 [.established, .gracefulShutdown 0]).sent) := by
  constructor
  · exact graceful_stop_only_when_drained_and_deadline_close.1 3200 320
      [.established, .writeable 0, .gracefulShutdown 0] 10 (by decide)
  · exact graceful_stop_only_when_drained_and_deadline_close.2
      (pipeRun 3200 320 [.established, .gracefulShutdown 0]) 60
      (by decide) (by decide) (by decide) (by decide)
